import Mathlib

/-
  Verification development for the goat-one record-preparation pipeline
  (src/resource/virtualmachine/preparer.go and src/resource/storage/filter.go).

  Shallow embedding conventions:
  * Go machine integers are modelled as Int/Nat; casts wrap explicitly
    (`uint32(v)` becomes `(v.emod (2 ^ 32)).toNat`, etc.).
  * A Go `(value, error)` pair is modelled as `Option value` (none = error)
    unless the error value itself matters, in which case a Bool error flag
    is carried alongside.
  * `time.Time` values are modelled by their Unix seconds (Int).  The
    `ptypes.TimestampProto` conversion in `checkTime` is range-checked in Go
    only for years outside [1, 9999]; it is modelled as always succeeding.
  * Go maps are modelled as total functions built by repeated insertion;
    a missing key yields the Go zero value ("" or the zero struct), exactly
    as a Go map lookup does.
  * History records are `[]*History` in Go.  A nil entry or a nil `HID`
    would crash `getBenchmarkType` (unguarded dereference), so entries and
    `HID` are modelled as present values; the `record != nil` guard of
    `getWallDuration` is then always taken and is dropped from the model.
  * `strconv.ParseFloat(_, 32)` followed by the float32 conversion is kept
    abstract: the development is parameterised by the result type `F` and a
    parse function `String → Option F` (none = parse error).
  * Logging side effects are modelled by a Nat counting error-level log
    calls; the Writer (delivery stage) is outside the modelled function.
-/

namespace GoatOne

/-- One history (occupancy) record of a virtual machine: start time,
end time (Unix seconds; `none` models a nil `*time.Time`), and host ID. -/
structure History where
  rstime : Option Int
  retime : Option Int
  hid : Int
  deriving DecidableEq

/-- One network interface: its IPv4 address (`net.IP`, a byte slice;
`none` models a nil slice) and its global IPv6 address. -/
structure NIC where
  ip : Option (List Nat)
  ip6Global : Option (List Nat)
  deriving DecidableEq

/-- One attached disk: its size and its image ID. -/
structure Disk where
  size : Int
  imageID : Int
  deriving DecidableEq

/-- A virtual machine as consumed by the preparer.  Each `Option` field
models one fallible accessor of the onego VirtualMachine; `none` means the
lookup returned an error.  `Attribute` models `vm.Attribute(key)`. -/
structure VirtualMachine where
  id : Option Int
  deployID : Option String
  user : Option Int
  group : Option Int
  state : Option Int
  stime : Option Int
  etime : Option Int
  vcpu : Option Int
  historyRecords : Option (List History)
  nics : Option (List NIC)
  disks : Option (List Disk)
  Attribute : String → Option String

/-- The preparer's reference tables (Go maps, modelled as total functions
with default "" for missing keys). -/
structure Preparer where
  userTemplateIdentity : Int → String
  imageTemplateCloudkeeperApplianceMpuri : Int → String
  hostTemplateBenchmarkType : Int → String
  hostTemplateBenchmarkValue : Int → String

/-- Ambient process state read by the transformer: the current time
(`time.Now().Unix()`), the viper configuration strings, the onego
`VirtualMachineStateMap`, and the float parser (`strconv.ParseFloat` with
bitSize 32, composed with the float32 conversion, abstracted over `F`). -/
structure Env (F : Type) where
  now : Int
  siteName : String
  cloudComputeService : String
  cloudType : String
  stateMap : Int → String
  parseFloat32 : String → Option F

/-- The canonical accounting record (pb.VmRecord).  Wrapper pointers
(`*wrappers.StringValue` etc.) are modelled as `Option`; plain fields as
their values.  `benchmark` carries the abstract float type `F`. -/
structure VmRecord (F : Type) where
  vmUuid : String
  siteName : String
  cloudComputeService : Option String
  machineName : String
  localUserId : Option String
  localGroupId : Option String
  globalUserName : Option String
  fqan : Option String
  status : Option String
  startTime : Int
  endTime : Option Int
  suspendDuration : Option Int
  wallDuration : Option Int
  cpuDuration : Option Int
  cpuCount : Nat
  networkType : Option String
  networkInbound : Option Nat
  networkOutbound : Option Nat
  publicIpCount : Option Nat
  memory : Option Nat
  disk : Option Nat
  benchmarkType : Option String
  benchmark : Option F
  storageRecordId : Option String
  imageId : Option String
  cloudType : String
  deriving DecidableEq

variable {F : Type}

/-- Attribute keys used by the preparer (string literals in the source). -/
def gnameKey : String := "GNAME"

def nettxKey : String := "MONITORING/NETTX"

def netrxKey : String := "MONITORING/NETRX"

def memoryKey : String := "TEMPLATE/MEMORY"

/-- Model of Go `strconv.ParseUint(s, 10, 64)`: rejects the empty string,
any non-digit character (signs and underscores are not accepted in base
10), and values not representable in 64 bits. -/
def parseUint64 (s : String) : Option Nat :=
  if s.data = [] then none
  else if s.data.all Char.isDigit then
    let n := s.data.foldl (fun acc c => acc * 10 + (c.toNat - 48)) 0
    if n < 2 ^ 64 then some n else none
  else none

/-- checkValueErrStr from preparer.go. -/
def checkValueErrStr (value : String) (err : Bool) : Option String :=
  if err = false ∧ value ≠ "" then some value else none

/-- checkValueErrInt from preparer.go (`fmt.Sprint` of an int is its
decimal rendering, never empty). -/
def checkValueErrInt (value : Int) (err : Bool) : Option String :=
  checkValueErrStr (toString value) err

/-- checkErrUint64 from preparer.go. -/
def checkErrUint64 (value : Option String) : Option Nat :=
  match value with
  | none => none
  | some s => if s ≠ "" then parseUint64 s else none

/-- getVMUUID from preparer.go: the numeric ID, stringified. -/
def getVMUUID (vm : VirtualMachine) : Option String :=
  vm.id.map (fun i => toString i)

/-- getSiteName from preparer.go; second component counts the error log
emitted when the configured site name is empty. -/
def getSiteName (env : Env F) : String × Nat :=
  (env.siteName, if env.siteName = "" then 1 else 0)

/-- getCloudComputeService from preparer.go. -/
def getCloudComputeService (env : Env F) : Option String :=
  checkValueErrStr env.cloudComputeService false

/-- getMachineName from preparer.go: the deploy ID. -/
def getMachineName (vm : VirtualMachine) : Option String :=
  vm.deployID

/-- getLocalUserID from preparer.go. -/
def getLocalUserID (vm : VirtualMachine) : Option String :=
  checkValueErrInt (vm.user.getD 0) vm.user.isNone

/-- getLocalGroupID from preparer.go. -/
def getLocalGroupID (vm : VirtualMachine) : Option String :=
  checkValueErrInt (vm.group.getD 0) vm.group.isNone

/-- getGlobalUserName from preparer.go.  Second component: whether the
returned error is non-nil.  When the user lookup succeeds the function
returns the (possibly nil) identity together with the nil error; when it
fails it returns the lookup error. -/
def getGlobalUserName (p : Preparer) (vm : VirtualMachine) : Option String × Bool :=
  match vm.user with
  | some userID =>
    let gun := p.userTemplateIdentity userID
    if gun ≠ "" then (some gun, false) else (none, false)
  | none => (none, true)

/-- getFqan from preparer.go. -/
def getFqan (vm : VirtualMachine) : Option String :=
  (vm.Attribute gnameKey).map (fun g => "/" ++ g ++ "/Role=NULL/Capability=NULL")

/-- getStatus from preparer.go (`VirtualMachineStateMap` lookup; a missing
state maps to "" exactly as a Go map lookup does, via `env.stateMap`). -/
def getStatus (env : Env F) (vm : VirtualMachine) : Option String :=
  vm.state.map env.stateMap

/-- getStartTime from preparer.go (checkTime of STime). -/
def getStartTime (vm : VirtualMachine) : Option Int :=
  vm.stime

/-- getEndTime from preparer.go; counts the error log on failure. -/
def getEndTime (vm : VirtualMachine) : Option Int × Nat :=
  match vm.etime with
  | some t => (some t, 0)
  | none => (none, 1)

/-- getSuspendDuration from preparer.go: `end − start − wall` when all
three are present, nil otherwise; no clamping. -/
def getSuspendDuration (sTime eTime wallDuration : Option Int) : Option Int :=
  match eTime, sTime, wallDuration with
  | some e, some s, some w => some (e - s - w)
  | _, _, _ => none

/-- Loop body of getWallDuration: skip a record whose RSTime is nil, skip
a record whose RETime is nil, substitute `now` when RETime's Unix value is
0, and accumulate `effectiveEnd − start`. -/
def wallStep (now sum : Int) (record : History) : Int :=
  match record.rstime with
  | none => sum
  | some rs =>
    match record.retime with
    | none => sum
    | some re => sum + ((if re = 0 then now else re) - rs)

/-- getWallDuration from preparer.go; second component counts the error
log emitted when the history lookup fails. -/
def getWallDuration (now : Int) (vm : VirtualMachine) : Option Int × Nat :=
  match vm.historyRecords with
  | none => (none, 1)
  | some records => (some (records.foldl (wallStep now) 0), 0)

/-- getCPUCount from preparer.go (`uint32(vcpu)` wraps modulo 2^32). -/
def getCPUCount (vm : VirtualMachine) : Nat :=
  match vm.vcpu with
  | some v => (v.emod (2 ^ 32)).toNat
  | none => 0

/-- getNetworkType from preparer.go: always nil. -/
def getNetworkType : Option String :=
  none

/-- getNetworkInbound from preparer.go: reads MONITORING/NETTX. -/
def getNetworkInbound (vm : VirtualMachine) : Option Nat :=
  checkErrUint64 (vm.Attribute nettxKey)

/-- getNetworkOutbound from preparer.go: reads MONITORING/NETRX. -/
def getNetworkOutbound (vm : VirtualMachine) : Option Nat :=
  checkErrUint64 (vm.Attribute netrxKey)

/-- Model of Go `net.IP.To4`: a 4-byte slice is returned as is; a 16-byte
slice with the IPv4-in-IPv6 prefix (ten zero bytes then 0xff 0xff) yields
its last four bytes; anything else yields nil. -/
def ipTo4 (ip : List Nat) : Option (List Nat) :=
  if ip.length = 4 then some ip
  else if ip.length = 16 ∧ ip.take 12 = [0, 0, 0, 0, 0, 0, 0, 0, 0, 0, 255, 255] then
    some (ip.drop 12)
  else none

/-- Model of Go `net.IP.IsLoopback`: 127.0.0.0/8 for IPv4, ::1 for IPv6. -/
def ipIsLoopback (ip : List Nat) : Bool :=
  match ipTo4 ip with
  | some ip4 => ip4.getD 0 0 = 127
  | none => ip = List.replicate 15 0 ++ [1]

/-- Model of Go `net.IP.IsLinkLocalUnicast`: 169.254.0.0/16 for IPv4,
fe80::/10 for IPv6. -/
def ipIsLinkLocalUnicast (ip : List Nat) : Bool :=
  match ipTo4 ip with
  | some ip4 => ip4.getD 0 0 = 169 ∧ ip4.getD 1 0 = 254
  | none => ip.length = 16 ∧ ip.getD 0 0 = 254 ∧ (ip.getD 1 0) &&& 192 = 128

/-- Model of Go `net.IP.IsLinkLocalMulticast`: 224.0.0.0/24 for IPv4,
ff02::/16 for IPv6. -/
def ipIsLinkLocalMulticast (ip : List Nat) : Bool :=
  match ipTo4 ip with
  | some ip4 => ip4.getD 0 0 = 224 ∧ ip4.getD 1 0 = 0 ∧ ip4.getD 2 0 = 0
  | none => ip.length = 16 ∧ ip.getD 0 0 = 255 ∧ (ip.getD 1 0) &&& 15 = 2

/-- isPublicIPv4 from preparer.go. -/
def isPublicIPv4 (oip : Option (List Nat)) : Bool :=
  match oip with
  | none => false
  | some ip =>
    if ipIsLoopback ip ∨ ipIsLinkLocalMulticast ip ∨ ipIsLinkLocalUnicast ip then false
    else
      match ipTo4 ip with
      | some ip4 =>
        if ip4.getD 0 0 = 10 then false
        else if ip4.getD 0 0 = 172 ∧ 16 ≤ ip4.getD 1 0 ∧ ip4.getD 1 0 ≤ 31 then false
        else if ip4.getD 0 0 = 192 ∧ ip4.getD 1 0 = 168 then false
        else true
      | none => false

/-- getPublicIPCount from preparer.go. -/
def getPublicIPCount (vm : VirtualMachine) : Option Nat :=
  match vm.nics with
  | none => none
  | some nics =>
    some (nics.foldl
      (fun count nic =>
        if isPublicIPv4 nic.ip || nic.ip6Global.isSome then count + 1 else count) 0)

/-- getMemory from preparer.go. -/
def getMemory (vm : VirtualMachine) : Option Nat :=
  checkErrUint64 (vm.Attribute memoryKey)

/-- getDiskSizes from preparer.go (`sum += uint64(disk.Size)` with uint64
wraparound at each step). -/
def getDiskSizes (vm : VirtualMachine) : Option Nat :=
  match vm.disks with
  | none => none
  | some disks =>
    some (disks.foldl (fun sum d => (sum + (d.size.emod (2 ^ 64)).toNat) % 2 ^ 64) 0)

/-- getBenchmarkType from preparer.go: the benchmark-type table at the
first history record's host; "" counts as absent. -/
def getBenchmarkType (p : Preparer) (vm : VirtualMachine) : Option String :=
  match vm.historyRecords with
  | some (first :: _) =>
    let tbt := p.hostTemplateBenchmarkType first.hid
    if tbt ≠ "" then some tbt else none
  | _ => none

/-- getBenchmark from preparer.go: the benchmark-value table at the first
history record's host, parsed as a float; "" or a parse failure is
absent. -/
def getBenchmark (p : Preparer) (env : Env F) (vm : VirtualMachine) : Option F :=
  match vm.historyRecords with
  | some (first :: _) =>
    let tbv := p.hostTemplateBenchmarkValue first.hid
    if tbv ≠ "" then env.parseFloat32 tbv else none
  | _ => none

/-- getImageID from preparer.go (the nil-entry guard on the first disk is
always satisfied in this model, see the header comment). -/
def getImageID (p : Preparer) (vm : VirtualMachine) : Option String :=
  match vm.disks with
  | some (first :: _) =>
    let iid := p.imageTemplateCloudkeeperApplianceMpuri first.imageID
    if iid ≠ "" then some iid else none
  | _ => none

/-- getCloudType from preparer.go; counts the error log emitted when the
configured cloud type is empty.  The value is always emitted, even when
empty. -/
def getCloudType (env : Env F) : String × Nat :=
  (env.cloudType, if env.cloudType = "" then 1 else 0)

/-- Preparation from preparer.go, up to the Writer call: the produced
record (none = nothing emitted) and the number of error-level log calls
made while preparing.  Each abort path logs exactly once and returns. -/
def Preparation (p : Preparer) (env : Env F) (acc : Option VirtualMachine) :
    Option (VmRecord F) × Nat :=
  match acc with
  | none => (none, 1)
  | some vm =>
    match vm.id with
    | none => (none, 1)
    | some _ =>
      match getVMUUID vm with
      | none => (none, 1)
      | some vmuuid =>
        match getMachineName vm with
        | none => (none, 1)
        | some machineName =>
          let gun := getGlobalUserName p vm
          if gun.2 then (none, 1)
          else
            match getStartTime vm with
            | none => (none, 1)
            | some sTime =>
              let eTime := getEndTime vm
              let wall := getWallDuration env.now vm
              let site := getSiteName env
              let cloud := getCloudType env
              (some {
                vmUuid := vmuuid
                siteName := site.1
                cloudComputeService := getCloudComputeService env
                machineName := machineName
                localUserId := getLocalUserID vm
                localGroupId := getLocalGroupID vm
                globalUserName := gun.1
                fqan := getFqan vm
                status := getStatus env vm
                startTime := sTime
                endTime := eTime.1
                suspendDuration := getSuspendDuration (some sTime) eTime.1 wall.1
                wallDuration := wall.1
                cpuDuration := wall.1
                cpuCount := getCPUCount vm
                networkType := getNetworkType
                networkInbound := getNetworkInbound vm
                networkOutbound := getNetworkOutbound vm
                publicIpCount := getPublicIPCount vm
                memory := getMemory vm
                disk := getDiskSizes vm
                benchmarkType := getBenchmarkType p vm
                benchmark := getBenchmark p env vm
                storageRecordId := none
                imageId := getImageID p vm
                cloudType := cloud.1 },
              eTime.2 + wall.2 + site.2 + cloud.2)

/-- The cluster collection entry as read by clustersMap: ID and the two
benchmark attributes (`none` = attribute lookup error; the Go call then
leaves the zero-value ""). -/
structure ClusterEnt where
  id : Option Int
  bType : Option String
  bValue : Option String
  deriving DecidableEq

/-- The host collection entry as read by the benchmark-table builder. -/
structure HostEnt where
  id : Option Int
  bType : Option String
  bValue : Option String
  cluster : Option Int
  deriving DecidableEq

/-- The benchmark struct from preparer.go. -/
structure Benchmark where
  bType : String
  bValue : String
  deriving DecidableEq

/-- clustersMap from preparer.go: a Go map built by insertion (later
entries overwrite), default zero struct; entities without an ID are
skipped. -/
def clustersMap (clusters : List ClusterEnt) : Int → Benchmark :=
  clusters.foldl
    (fun m c =>
      match c.id with
      | none => m
      | some cid => fun x => if x = cid then ⟨c.bType.getD (""), c.bValue.getD ("")⟩ else m x)
    (fun _ => ⟨"", ""⟩)

/-- typeFromCluster from preparer.go: "" when the host's cluster lookup
fails. -/
def typeFromCluster (m : Int → Benchmark) (host : HostEnt) : String :=
  match host.cluster with
  | none => ""
  | some cid => (m cid).bType

/-- valueFromCluster from preparer.go. -/
def valueFromCluster (m : Int → Benchmark) (host : HostEnt) : String :=
  match host.cluster with
  | none => ""
  | some cid => (m cid).bValue

/-- Loop body of initializeHostTemplateBenchmark: a host without a
resolvable ID is skipped; otherwise its own benchmark attributes are
used when present, with the cluster fallback otherwise, and both maps
are updated (later hosts overwrite). -/
def benchStep (cm : Int → Benchmark) (maps : (Int → String) × (Int → String))
    (host : HostEnt) : (Int → String) × (Int → String) :=
  match host.id with
  | none => maps
  | some hid =>
    let bType := match host.bType with
      | some t => t
      | none => typeFromCluster cm host
    let bValue := match host.bValue with
      | some v => v
      | none => valueFromCluster cm host
    ((fun x => if x = hid then bType else maps.1 x),
     (fun x => if x = hid then bValue else maps.2 x))

/-- initializeHostTemplateBenchmark from preparer.go (named build... here):
builds the host benchmark-type and benchmark-value maps from the host
collection, with the cluster fallback. -/
def buildHostTemplateBenchmark (hosts : List HostEnt) (clusters : List ClusterEnt) :
    (Int → String) × (Int → String) :=
  hosts.foldl (benchStep (clustersMap clusters)) ((fun _ => ""), (fun _ => ""))

/-- State observed by one Filtering call: the contents of the filtered
channel and the number of completion signals sent to the wait group. -/
structure FilterState (α : Type) where
  filtered : List α
  doneSignals : Nat
  deriving DecidableEq

/-- Filtering from storage/filter.go: forwards the resource to the
filtered channel and signals the wait group once (deferred Done). -/
def Filtering {α : Type} (res : α) (st : FilterState α) : FilterState α :=
  { filtered := st.filtered ++ [res], doneSignals := st.doneSignals + 1 }

/-- Spec-side formula transcribed from claim C1's words: the sum of
`effectiveEnd − start` over all history intervals with a present start
timestamp, where an interval lacking an end uses the current time as the
effective end and intervals lacking a present start are skipped; absent
only if the history lookup fails. -/
def wallDurationClaimC1 (now : Int) (vm : VirtualMachine) : Option Int :=
  vm.historyRecords.map (fun records =>
    (records.filterMap (fun r => r.rstime.map (fun rs => r.retime.getD now - rs))).sum)

/-- Spec-side formula for the amended claim C1: intervals missing a start
or missing an end are skipped entirely; a present end equal to Unix time
0 uses the current time as the effective end; absent only if the history
lookup fails. -/
def wallDurationAmended (now : Int) (vm : VirtualMachine) : Option Int :=
  vm.historyRecords.map (fun records =>
    (records.filterMap (fun r =>
      match r.rstime, r.retime with
      | some rs, some re => some ((if re = 0 then now else re) - rs)
      | _, _ => none)).sum)

/-- Contribution of one history record to the wall-duration sum. -/
def histContribution (now : Int) (r : History) : Int :=
  match r.rstime, r.retime with
  | some rs, some re => (if re = 0 then now else re) - rs
  | _, _ => 0

theorem wallStep_eq (now sum : Int) (r : History) :
    wallStep now sum r = sum + histContribution now r := by
  rcases r with ⟨rs, re, hid⟩
  cases rs <;> cases re <;> simp [wallStep, histContribution]

theorem wall_foldl (now : Int) (l : List History) :
    ∀ init : Int,
      l.foldl (wallStep now) init = init + (l.map (histContribution now)).sum := by
  induction l with
  | nil => intro init; simp
  | cons r t ih =>
    intro init
    rw [List.foldl_cons, wallStep_eq, ih, List.map_cons, List.sum_cons, add_assoc]

/-- A virtual machine with every lookup failing: the base for the
concrete instances below. -/
def vmEmpty : VirtualMachine :=
  { id := none, deployID := none, user := none, group := none, state := none,
    stime := none, etime := none, vcpu := none, historyRecords := none,
    nics := none, disks := none, Attribute := fun _ => none }

/-- A preparer whose reference tables are all empty. -/
def pEmpty : Preparer :=
  { userTemplateIdentity := fun _ => "",
    imageTemplateCloudkeeperApplianceMpuri := fun _ => "",
    hostTemplateBenchmarkType := fun _ => "",
    hostTemplateBenchmarkValue := fun _ => "" }

/-- A concrete environment (the abstract float type instantiated at Int). -/
def envInt : Env Int :=
  { now := 0,
    siteName := "site",
    cloudComputeService := "",
    cloudType := "cloud",
    stateMap := fun _ => "",
    parseFloat32 := fun _ => none }

/-- A virtual machine with one history interval having a present start
and a nil end timestamp. -/
def vmOpenEnd : VirtualMachine :=
  { vmEmpty with
    id := some 7
    deployID := some ("vm-7")
    user := some 1
    stime := some 50
    historyRecords := some [⟨some 100, none, 0⟩] }

/-- C1: the claim states that an interval lacking an end timestamp uses
the current time as its effective end.  On a machine whose single history
interval has start 100 and a nil end, at current time 1000 the claim
predicts a wall duration of 900, but the code skips the interval and
returns 0: the claim is false as stated. -/
theorem C1_counterexample :
    (getWallDuration 1000 vmOpenEnd).1 = some 0 ∧
    wallDurationClaimC1 1000 vmOpenEnd = some 900 ∧
    (getWallDuration 1000 vmOpenEnd).1 ≠ wallDurationClaimC1 1000 vmOpenEnd := by
  decide

theorem wall_map_eq_filterMap (now : Int) (m : List History) :
    (List.map (histContribution now) m).sum =
      (m.filterMap (fun r =>
        match r.rstime, r.retime with
        | some rs, some re => some ((if re = 0 then now else re) - rs)
        | _, _ => none)).sum := by
  induction m with
  | nil => simp
  | cons r t ih =>
    rcases r with ⟨rs, re, hid⟩
    cases rs <;> cases re <;> simp [histContribution, List.filterMap_cons, ih]

/-- C1 (amended): for every virtual machine whose history lookup
succeeds, the wall duration equals the sum of `effectiveEnd − start` over
all history intervals with a present start and a present end, where an
end recorded as Unix time 0 uses the current time as the effective end;
intervals lacking a start or lacking an end are skipped entirely; the
wall duration is absent exactly when the history lookup fails. -/
theorem C1_wall_duration_amended (now : Int) (vm : VirtualMachine) :
    (getWallDuration now vm).1 = wallDurationAmended now vm ∧
    ((getWallDuration now vm).1 = none ↔ vm.historyRecords = none) := by
  rcases h : vm.historyRecords with _ | l
  · simp [getWallDuration, wallDurationAmended, h]
  · refine ⟨?_, by simp [getWallDuration, h]⟩
    simp [getWallDuration, wallDurationAmended, h, wall_foldl,
      wall_map_eq_filterMap]

/-- A machine with one closed interval and one nil-end interval. -/
def vmNilEndPair : VirtualMachine :=
  { vmEmpty with historyRecords := some [⟨some 1, some 4, 0⟩, ⟨some 9, none, 0⟩] }

/-- A machine with just the closed interval of `vmNilEndPair`. -/
def vmClosedOnly : VirtualMachine :=
  { vmEmpty with historyRecords := some [⟨some 1, some 4, 0⟩] }

/-- A machine with the closed interval and one still-running interval
(present end recorded as Unix time 0). -/
def vmZeroEndPair : VirtualMachine :=
  { vmEmpty with historyRecords := some [⟨some 1, some 4, 0⟩, ⟨some 20, some 0, 0⟩] }

/-- C10: an occupancy interval whose end timestamp is nil contributes
nothing to the wall duration (it is skipped, exactly like one with a nil
start), whereas an interval whose end is present but equal to Unix time 0
contributes `now − start`. -/
theorem C10_zero_end_vs_nil_end (now : Int) (vm vm2 : VirtualMachine)
    (pre post : List History) (r : History)
    (h1 : vm.historyRecords = some (pre ++ r :: post))
    (h2 : vm2.historyRecords = some (pre ++ post)) :
    (r.retime = none → (getWallDuration now vm).1 = (getWallDuration now vm2).1) ∧
    (∀ s : Int, r.rstime = some s → r.retime = some 0 →
      (getWallDuration now vm).1 =
        ((getWallDuration now vm2).1).map (fun w => w + (now - s))) := by
  constructor
  · intro hre
    have hr : histContribution now r = 0 := by
      rcases r with ⟨rs, re, hid⟩
      cases hre
      cases rs <;> simp [histContribution]
    simp [getWallDuration, h1, h2, wall_foldl, wallStep_eq, hr]
  · intro s hrs hre
    have hr : histContribution now r = now - s := by
      rcases r with ⟨rs, re, hid⟩
      cases hre
      cases hrs
      simp [histContribution]
    simp [getWallDuration, h1, h2, wall_foldl, wallStep_eq, hr]
    ring

/-- Witness for C10 at concrete inputs: the nil-end interval of
`vmNilEndPair` contributes nothing, and the zero-end interval of
`vmZeroEndPair` contributes `500 − 20`. -/
theorem C10_witness :
    (getWallDuration 500 vmNilEndPair).1 = (getWallDuration 500 vmClosedOnly).1 ∧
    (getWallDuration 500 vmZeroEndPair).1 =
      ((getWallDuration 500 vmClosedOnly).1).map (fun w => w + (500 - 20)) :=
  ⟨(C10_zero_end_vs_nil_end 500 vmNilEndPair vmClosedOnly
      [⟨some 1, some 4, 0⟩] [] ⟨some 9, none, 0⟩ rfl rfl).1 rfl,
   (C10_zero_end_vs_nil_end 500 vmZeroEndPair vmClosedOnly
      [⟨some 1, some 4, 0⟩] [] ⟨some 20, some 0, 0⟩ rfl rfl).2 20 rfl rfl⟩

/-- A virtual machine with all mandatory lookups succeeding. -/
def vmGood : VirtualMachine :=
  { vmEmpty with
    id := some 42
    deployID := some ("vm-42")
    user := some 1
    stime := some 100 }

/-- A virtual machine with ID, deployment name and start time resolvable
but a failing user-ID lookup. -/
def vmNoUser : VirtualMachine :=
  { vmEmpty with
    id := some 1
    deployID := some ("vm-1")
    stime := some 100 }

/-- C2: the claim says a resource with resolvable ID, deployment name and
start time always yields exactly one record; `vmNoUser` has all three,
yet the failing user-ID lookup aborts the record (nothing is emitted). -/
theorem C2_counterexample :
    vmNoUser.id.isSome = true ∧ vmNoUser.deployID.isSome = true ∧
    vmNoUser.stime.isSome = true ∧
    (Preparation pEmpty envInt (some vmNoUser)).1 = none := by
  decide

/-- C2 (amended): a resource with resolvable ID, deployment name, start
time AND a successful user-ID lookup yields exactly one record (never
dropped because an optional field is missing); a resource missing ID,
deployment name or start time yields zero records and exactly one logged
error. -/
theorem C2_record_production {F : Type} (p : Preparer) (env : Env F)
    (vm : VirtualMachine) :
    (vm.id.isSome = true → vm.deployID.isSome = true → vm.user.isSome = true →
      vm.stime.isSome = true → ((Preparation p env (some vm)).1).isSome = true) ∧
    ((vm.id = none ∨ vm.deployID = none ∨ vm.stime = none) →
      Preparation p env (some vm) = (none, 1)) := by
  constructor
  · intro h1 h2 h3 h4
    rcases hid : vm.id with _ | i
    · rw [hid] at h1; cases h1
    rcases hdep : vm.deployID with _ | d
    · rw [hdep] at h2; cases h2
    rcases huser : vm.user with _ | u
    · rw [huser] at h3; cases h3
    rcases hst : vm.stime with _ | s
    · rw [hst] at h4; cases h4
    have hgun : (getGlobalUserName p vm).2 = false := by
      simp only [getGlobalUserName, huser]
      split <;> rfl
    simp [Preparation, getVMUUID, getMachineName, getStartTime, hid, hdep, hst, hgun]
  · intro h
    rcases hid : vm.id with _ | i
    · simp [Preparation, hid]
    rcases hdep : vm.deployID with _ | d
    · simp [Preparation, getVMUUID, getMachineName, hid, hdep]
    have hst : vm.stime = none := by
      rcases h with h | h | h
      · rw [hid] at h; cases h
      · rw [hdep] at h; cases h
      · exact h
    rcases huser : vm.user with _ | u
    · simp [Preparation, getVMUUID, getMachineName, getGlobalUserName,
        getStartTime, hid, hdep, huser, hst]
    · have hgun : (getGlobalUserName p vm).2 = false := by
        simp only [getGlobalUserName, huser]
        split <;> rfl
      simp [Preparation, getVMUUID, getMachineName, getStartTime,
        hid, hdep, hst, hgun]

/-- Witness for C2 (amended) at concrete inputs: `vmGood` yields a
record, `vmEmpty` (unresolvable ID) yields none and one logged error. -/
theorem C2_witness :
    ((Preparation pEmpty envInt (some vmGood)).1).isSome = true ∧
    Preparation pEmpty envInt (some vmEmpty) = (none, 1) :=
  ⟨(C2_record_production pEmpty envInt vmGood).1 (by decide) (by decide)
      (by decide) (by decide),
   (C2_record_production pEmpty envInt vmEmpty).2 (Or.inl (by decide))⟩

/-- C5: a failed user-ID lookup aborts the whole record, while a
successful lookup that resolves to an empty identity still emits the
record with the global-user-name field absent. -/
theorem C5_user_lookup_asymmetry {F : Type} (p : Preparer) (env : Env F)
    (vm : VirtualMachine) :
    (vm.user = none → Preparation p env (some vm) = (none, 1)) ∧
    (∀ u : Int, vm.user = some u → p.userTemplateIdentity u = "" →
      vm.id.isSome = true → vm.deployID.isSome = true → vm.stime.isSome = true →
      ((Preparation p env (some vm)).1).isSome = true ∧
      ((Preparation p env (some vm)).1).map (fun r => r.globalUserName) = some none) := by
  constructor
  · intro huser
    rcases hid : vm.id with _ | i
    · simp [Preparation, hid]
    rcases hdep : vm.deployID with _ | d
    · simp [Preparation, getVMUUID, getMachineName, hid, hdep]
    simp [Preparation, getVMUUID, getMachineName, getGlobalUserName, hid, hdep, huser]
  · intro u huser htab h1 h2 h3
    rcases hid : vm.id with _ | i
    · rw [hid] at h1; cases h1
    rcases hdep : vm.deployID with _ | d
    · rw [hdep] at h2; cases h2
    rcases hst : vm.stime with _ | s
    · rw [hst] at h3; cases h3
    have hgun : getGlobalUserName p vm = (none, false) := by
      simp [getGlobalUserName, huser, htab]
    simp [Preparation, getVMUUID, getMachineName, getStartTime, hid, hdep, hst, hgun]

/-- Witness for C5 at concrete inputs: the aborted case on `vmNoUser` and
the emitted-with-absent-field case on `vmGood` with empty tables. -/
theorem C5_witness :
    Preparation pEmpty envInt (some vmNoUser) = (none, 1) ∧
    ((Preparation pEmpty envInt (some vmGood)).1).map (fun r => r.globalUserName) =
      some none :=
  ⟨(C5_user_lookup_asymmetry pEmpty envInt vmNoUser).1 rfl,
   ((C5_user_lookup_asymmetry pEmpty envInt vmGood).2 1 rfl rfl (by decide)
      (by decide) (by decide)).2⟩

/-- A virtual machine with a still-running history interval (present end
recorded as Unix time 0), whose wall duration therefore depends on the
current time. -/
def vmStillRunning : VirtualMachine :=
  { vmEmpty with
    id := some 3
    deployID := some ("vm-3")
    user := some 1
    stime := some 10
    historyRecords := some [⟨some 10, some 0, 0⟩] }

/-- C3: the claim says two transformer runs on the same resource and the
same tables yield byte-identical records with no hidden state influencing
the output; but the current time is such hidden state — two runs at times
1000 and 2000 on `vmStillRunning` yield different records (their wall
durations differ). -/
theorem C3_counterexample :
    Preparation pEmpty { envInt with now := 1000 } (some vmStillRunning) ≠
      Preparation pEmpty { envInt with now := 2000 } (some vmStillRunning) := by
  decide

/-- C3 (amended): the transformer's output is a pure function of the
resource, the reference tables, the configuration and the current time;
two runs on the same resource and tables yield identical records whenever
the current time reading is the same, and also at different times
provided no history interval is still running (no present end recorded
as Unix time 0). -/
theorem C3_deterministic {F : Type} (p : Preparer) (env : Env F) (t : Int)
    (vm : VirtualMachine)
    (hh : ∀ r ∈ vm.historyRecords.getD [], r.retime ≠ some 0) :
    Preparation p { env with now := t } (some vm) = Preparation p env (some vm) := by
  have hwall : getWallDuration t vm = getWallDuration env.now vm := by
    rcases h : vm.historyRecords with _ | l
    · simp [getWallDuration, h]
    · rw [h] at hh
      simp only [Option.getD_some] at hh
      have hmap : List.map (histContribution t) l = List.map (histContribution env.now) l := by
        apply List.map_congr_left
        intro r hr
        rcases r with ⟨rs, re, hid⟩
        rcases rs with _ | rs
        · simp [histContribution]
        rcases re with _ | re
        · simp [histContribution]
        have hne : re ≠ 0 := by
          intro h0
          exact hh ⟨some rs, some re, hid⟩ hr (by rw [h0])
        simp [histContribution, hne]
      simp only [getWallDuration, h, wall_foldl, hmap]
  dsimp only [Preparation]
  simp only [hwall, getSiteName, getCloudComputeService, getStatus,
    getBenchmark, getCloudType]

/-- Witness for C3 (amended) at a concrete input: `vmClosedOnly` has no
still-running interval, so runs at times 77 and 0 agree. -/
theorem C3_witness :
    Preparation pEmpty { envInt with now := 77 } (some vmClosedOnly) =
      Preparation pEmpty envInt (some vmClosedOnly) := by
  have h := C3_deterministic pEmpty envInt 77 vmClosedOnly (by decide)
  simpa using h

theorem checkErrUint64_eq_bind (v : Option String) :
    checkErrUint64 v = v.bind parseUint64 := by
  rcases v with _ | s
  · rfl
  · by_cases h : s = ""
    · subst h; rfl
    · simp [checkErrUint64, h]

/-- A virtual machine whose RX monitoring counter is 111 and whose TX
monitoring counter is 222. -/
def vmNetCounters : VirtualMachine :=
  { vmEmpty with
    Attribute := fun k =>
      if k = netrxKey then some ("111")
      else if k = nettxKey then some ("222") else none }

/-- C4: the claim says the inbound field is derived from the RX counter
attribute; on `vmNetCounters` (RX = 111, TX = 222) the code reports
inbound 222 and outbound 111: inbound is read from MONITORING/NETTX and
outbound from MONITORING/NETRX, the opposite pairing. -/
theorem C4_counterexample :
    vmNetCounters.Attribute netrxKey = some ("111") ∧
    vmNetCounters.Attribute nettxKey = some ("222") ∧
    getNetworkInbound vmNetCounters = some 222 ∧
    getNetworkOutbound vmNetCounters = some 111 ∧
    getNetworkInbound vmNetCounters ≠ checkErrUint64 (vmNetCounters.Attribute netrxKey) := by
  decide

/-- C4 (amended): the network inbound bytes field is derived from the TX
monitoring counter attribute (MONITORING/NETTX) and the outbound bytes
field from the RX counter attribute (MONITORING/NETRX), each parsed as an
unsigned 64-bit integer; each field is absent exactly when its attribute
is missing or not parseable as an unsigned integer. -/
theorem C4_network_counters_swapped (vm : VirtualMachine) :
    getNetworkInbound vm = (vm.Attribute nettxKey).bind parseUint64 ∧
    getNetworkOutbound vm = (vm.Attribute netrxKey).bind parseUint64 ∧
    (getNetworkInbound vm = none ↔
      vm.Attribute nettxKey = none ∨
        ∃ s, vm.Attribute nettxKey = some s ∧ parseUint64 s = none) := by
  refine ⟨checkErrUint64_eq_bind _, checkErrUint64_eq_bind _, ?_⟩
  rw [show getNetworkInbound vm = (vm.Attribute nettxKey).bind parseUint64 from
    checkErrUint64_eq_bind _]
  rcases h : vm.Attribute nettxKey with _ | s
  · simp
  · simp [h]

theorem bench_foldl_not_mem (cm : Int → Benchmark) (hosts : List HostEnt) (i : Int)
    (h : ∀ ho ∈ hosts, ho.id ≠ some i) :
    ∀ init : (Int → String) × (Int → String),
      (hosts.foldl (benchStep cm) init).1 i = init.1 i ∧
      (hosts.foldl (benchStep cm) init).2 i = init.2 i := by
  induction hosts with
  | nil => intro init; exact ⟨rfl, rfl⟩
  | cons ho t ih =>
    intro init
    have hne : ho.id ≠ some i := h ho (List.mem_cons_self ho t)
    have ht : ∀ x ∈ t, x.id ≠ some i := fun x hx => h x (List.mem_cons_of_mem ho hx)
    have hstep : (benchStep cm init ho).1 i = init.1 i ∧
        (benchStep cm init ho).2 i = init.2 i := by
      rcases hid : ho.id with _ | j
      · simp [benchStep, hid]
      · have hji : i ≠ j := by
          intro hij
          exact hne (by rw [hid, hij])
        simp [benchStep, hid, hji]
    rcases ih ht (benchStep cm init ho) with ⟨ih1, ih2⟩
    rw [List.foldl_cons]
    exact ⟨ih1.trans hstep.1, ih2.trans hstep.2⟩

/-- C6: the benchmark type and value come from the first history record's
host via the benchmark tables, which are built with the host-then-cluster
fallback: a cluster entry records its own attributes (missing attribute
becomes ""); a host processed last with an ID records its own attribute
when present, otherwise its cluster's value via the cluster map (a failed
cluster lookup gives ""); an ID no host carries stays at "".  The fields
are absent when there are no history records, when the host's table entry
is empty (unknown host), or — for the value — when parsing fails; the
record is still emitted regardless, carrying exactly these fields. -/
theorem C6_benchmark_fields {F : Type} (p : Preparer) (env : Env F) :
    (∀ (clusters : List ClusterEnt) (c : ClusterEnt) (j : Int), c.id = some j →
      clustersMap (clusters ++ [c]) j = ⟨c.bType.getD (""), c.bValue.getD ("")⟩) ∧
    (∀ (hosts : List HostEnt) (clusters : List ClusterEnt) (h : HostEnt) (i : Int),
      h.id = some i →
      (buildHostTemplateBenchmark (hosts ++ [h]) clusters).1 i =
        (match h.bType with
         | some t => t
         | none => typeFromCluster (clustersMap clusters) h) ∧
      (buildHostTemplateBenchmark (hosts ++ [h]) clusters).2 i =
        (match h.bValue with
         | some v => v
         | none => valueFromCluster (clustersMap clusters) h)) ∧
    (∀ (hosts : List HostEnt) (clusters : List ClusterEnt) (i : Int),
      (∀ ho ∈ hosts, ho.id ≠ some i) →
      (buildHostTemplateBenchmark hosts clusters).1 i = "" ∧
      (buildHostTemplateBenchmark hosts clusters).2 i = "") ∧
    (∀ vm : VirtualMachine, vm.historyRecords = none ∨ vm.historyRecords = some [] →
      getBenchmarkType p vm = none ∧ getBenchmark p env vm = none) ∧
    (∀ (vm : VirtualMachine) (first : History) (rest : List History),
      vm.historyRecords = some (first :: rest) →
      getBenchmarkType p vm =
        (if p.hostTemplateBenchmarkType first.hid = "" then none
         else some (p.hostTemplateBenchmarkType first.hid)) ∧
      getBenchmark p env vm =
        (if p.hostTemplateBenchmarkValue first.hid = "" then none
         else env.parseFloat32 (p.hostTemplateBenchmarkValue first.hid))) ∧
    (∀ vm : VirtualMachine, vm.id.isSome = true → vm.deployID.isSome = true →
      vm.user.isSome = true → vm.stime.isSome = true →
      ((Preparation p env (some vm)).1).map (fun r => (r.benchmarkType, r.benchmark)) =
        some (getBenchmarkType p vm, getBenchmark p env vm)) := by
  refine ⟨?_, ?_, ?_, ?_, ?_, ?_⟩
  · intro clusters c j hc
    simp [clustersMap, List.foldl_append, hc]
  · intro hosts clusters h i hi
    constructor <;>
      simp [buildHostTemplateBenchmark, List.foldl_append, benchStep, hi]
  · intro hosts clusters i h
    exact bench_foldl_not_mem (clustersMap clusters) hosts i h _
  · intro vm h
    rcases h with h | h <;> simp [getBenchmarkType, getBenchmark, h]
  · intro vm first rest h
    constructor
    · by_cases ht : p.hostTemplateBenchmarkType first.hid = "" <;>
        simp [getBenchmarkType, h, ht]
    · by_cases hv : p.hostTemplateBenchmarkValue first.hid = "" <;>
        simp [getBenchmark, h, hv]
  · intro vm h1 h2 h3 h4
    rcases hid : vm.id with _ | i
    · rw [hid] at h1; cases h1
    rcases hdep : vm.deployID with _ | d
    · rw [hdep] at h2; cases h2
    rcases huser : vm.user with _ | u
    · rw [huser] at h3; cases h3
    rcases hst : vm.stime with _ | s
    · rw [hst] at h4; cases h4
    have hgun : (getGlobalUserName p vm).2 = false := by
      simp only [getGlobalUserName, huser]
      split <;> rfl
    simp [Preparation, getVMUUID, getMachineName, getStartTime, hid, hdep, hst, hgun]

/-- A cluster with both benchmark attributes set. -/
def clusterW : ClusterEnt := ⟨some 5, some ("HS06"), some ("100")⟩

/-- A host carrying its own benchmark attributes. -/
def hostOwnW : HostEnt := ⟨some 1, some ("SPEC"), some ("7"), some 5⟩

/-- A host without benchmark attributes, falling back to its cluster. -/
def hostFallW : HostEnt := ⟨some 2, none, none, some 5⟩

/-- A preparer whose benchmark tables resolve host 3. -/
def pBenchW : Preparer :=
  { pEmpty with
    hostTemplateBenchmarkType := fun i => if i = 3 then ("HS06") else ("")
    hostTemplateBenchmarkValue := fun i => if i = 3 then ("100") else ("") }

/-- A virtual machine whose first history record runs on host 3. -/
def vmBenchW : VirtualMachine :=
  { vmGood with historyRecords := some [⟨some 1, some 2, 3⟩] }

/-- Witness for C6 at concrete inputs: a cluster records its attributes;
a host uses its own attributes; a host without them uses the cluster's;
an unknown host stays empty; a machine without history has absent fields;
a machine on a resolvable host gets the table values; and the record is
still emitted. -/
theorem C6_witness :
    clustersMap ([] ++ [clusterW]) 5 = ⟨"HS06", "100"⟩ ∧
    (buildHostTemplateBenchmark ([] ++ [hostOwnW]) [clusterW]).1 1 = "SPEC" ∧
    (buildHostTemplateBenchmark ([hostOwnW] ++ [hostFallW]) [clusterW]).2 2 = "100" ∧
    (buildHostTemplateBenchmark [hostOwnW, hostFallW] [clusterW]).1 99 = "" ∧
    getBenchmarkType pEmpty vmGood = none ∧
    getBenchmarkType pBenchW vmBenchW = some ("HS06") ∧
    ((Preparation pBenchW envInt (some vmBenchW)).1).map
        (fun r => (r.benchmarkType, r.benchmark)) =
      some (getBenchmarkType pBenchW vmBenchW, getBenchmark pBenchW envInt vmBenchW) := by
  have h := C6_benchmark_fields (F := Int) pBenchW envInt
  refine ⟨h.1 [] clusterW 5 rfl, ?_, ?_, ?_, ?_, ?_, ?_⟩
  · exact ((h.2.1 [] [clusterW] hostOwnW 1 rfl).1).trans (by decide)
  · exact ((h.2.1 [hostOwnW] [clusterW] hostFallW 2 rfl).2).trans (by decide)
  · exact ((h.2.2.1 [hostOwnW, hostFallW] [clusterW] 99 (by decide)).1)
  · exact ((C6_benchmark_fields (F := Int) pEmpty envInt).2.2.2.1 vmGood (Or.inl rfl)).1
  · exact ((h.2.2.2.2.1 vmBenchW ⟨some 1, some 2, 3⟩ [] rfl).1).trans (by decide)
  · exact h.2.2.2.2.2 vmBenchW (by decide) (by decide) (by decide) (by decide)

/-- Spec-side predicate transcribed from claim C7's words: the address is
a public IPv4 — excluding loopback, link-local, and the private ranges
10.0.0.0/8, 172.16.0.0/12 and 192.168.0.0/16. -/
def publicIPv4Spec (oip : Option (List Nat)) : Bool :=
  match oip with
  | none => false
  | some ip =>
    match ipTo4 ip with
    | none => false
    | some ip4 =>
      if ipIsLoopback ip ∨ ipIsLinkLocalUnicast ip ∨ ipIsLinkLocalMulticast ip ∨
          ip4.getD 0 0 = 10 ∨
          (ip4.getD 0 0 = 172 ∧ 16 ≤ ip4.getD 1 0 ∧ ip4.getD 1 0 ≤ 31) ∨
          (ip4.getD 0 0 = 192 ∧ ip4.getD 1 0 = 168)
      then false else true

/-- Spec-side predicate for one interface: its address is IPv6-global or
a public IPv4. -/
def nicIsPublicSpec (nic : NIC) : Bool :=
  nic.ip6Global.isSome || publicIPv4Spec nic.ip

theorem isPublicIPv4_eq_spec (oip : Option (List Nat)) :
    isPublicIPv4 oip = publicIPv4Spec oip := by
  rcases oip with _ | ip
  · rfl
  · rcases h4 : ipTo4 ip with _ | ip4
    · simp [isPublicIPv4, publicIPv4Spec, h4]
    · simp only [isPublicIPv4, publicIPv4Spec, h4]
      by_cases hL : ipIsLoopback ip <;>
      by_cases hM : ipIsLinkLocalMulticast ip <;>
      by_cases hU : ipIsLinkLocalUnicast ip <;>
      by_cases h10 : ip4.getD 0 0 = 10 <;>
      by_cases h172 : ip4.getD 0 0 = 172 ∧ 16 ≤ ip4.getD 1 0 ∧ ip4.getD 1 0 ≤ 31 <;>
      by_cases h192 : ip4.getD 0 0 = 192 ∧ ip4.getD 1 0 = 168 <;>
      simp [hL, hM, hU, h10, h172, h192]

theorem publicIP_foldl (l : List NIC) :
    ∀ n : Nat,
      l.foldl (fun count nic =>
        if isPublicIPv4 nic.ip || nic.ip6Global.isSome then count + 1 else count) n
      = n + l.countP nicIsPublicSpec := by
  induction l with
  | nil => intro n; simp
  | cons x t ih =>
    intro n
    have hx : (isPublicIPv4 x.ip || x.ip6Global.isSome) = nicIsPublicSpec x := by
      simp [nicIsPublicSpec, isPublicIPv4_eq_spec, Bool.or_comm]
    simp only [List.foldl_cons]
    rw [hx, ih, List.countP_cons]
    cases h : nicIsPublicSpec x
    · simp [h]
    · simp [h]
      omega

/-- C7: when the interface list is available, the public IP count counts
exactly the interfaces whose address is IPv6-global or a public IPv4
(excluding loopback, link-local, and the private ranges 10.0.0.0/8,
172.16.0.0/12 and 192.168.0.0/16); the field is absent exactly when the
interface list is unavailable. -/
theorem C7_public_ip_count (vm : VirtualMachine) :
    (vm.nics = none → getPublicIPCount vm = none) ∧
    (∀ nics : List NIC, vm.nics = some nics →
      getPublicIPCount vm = some (nics.countP nicIsPublicSpec)) := by
  constructor
  · intro h
    simp [getPublicIPCount, h]
  · intro nics h
    simp only [getPublicIPCount, h]
    rw [publicIP_foldl]
    simp

/-- A machine whose interfaces carry only private, loopback and
link-local addresses. -/
def vmPrivNics : VirtualMachine :=
  { vmEmpty with
    nics := some [
      ⟨some [10, 0, 0, 1], none⟩,
      ⟨some [172, 16, 0, 1], none⟩,
      ⟨some [192, 168, 1, 1], none⟩,
      ⟨some [127, 0, 0, 1], none⟩,
      ⟨some [169, 254, 1, 1], none⟩,
      ⟨some [224, 0, 0, 5], none⟩] }

/-- A machine with one routable public IPv4 interface and one interface
with a global IPv6 address. -/
def vmPubNics : VirtualMachine :=
  { vmEmpty with
    nics := some [
      ⟨some [8, 8, 8, 8], none⟩,
      ⟨some [10, 0, 0, 2], some [32, 1, 13, 184, 0, 0, 0, 0, 0, 0, 0, 0, 0, 0, 0, 1]⟩] }

/-- Witness for C7 at the spec's synthetic interface sets: only excluded
addresses give count 0; one IPv6-global plus one public IPv4 give 2. -/
theorem C7_witness :
    getPublicIPCount vmPrivNics = some 0 ∧ getPublicIPCount vmPubNics = some 2 :=
  ⟨((C7_public_ip_count vmPrivNics).2 _ rfl).trans (by decide),
   ((C7_public_ip_count vmPubNics).2 _ rfl).trans (by decide)⟩

/-- C8: the suspend duration is emitted iff start time, end time and wall
duration are all present, then equals `end − start − wall` exactly, with
negative results not clamped. -/
theorem C8_suspend_duration (sTime eTime wallDuration : Option Int) :
    ((getSuspendDuration sTime eTime wallDuration).isSome = true ↔
      sTime.isSome = true ∧ eTime.isSome = true ∧ wallDuration.isSome = true) ∧
    (∀ s e w : Int, sTime = some s → eTime = some e → wallDuration = some w →
      getSuspendDuration sTime eTime wallDuration = some (e - s - w)) ∧
    getSuspendDuration (some 0) (some 5) (some 10) = some (-5) := by
  refine ⟨?_, ?_, rfl⟩
  · cases sTime <;> cases eTime <;> cases wallDuration <;> simp [getSuspendDuration]
  · intro s e w hs he hw
    subst hs
    subst he
    subst hw
    rfl

/-- Witness for C8 at a concrete input. -/
theorem C8_witness :
    getSuspendDuration (some 100) (some 250) (some 30) = some 120 :=
  ((C8_suspend_duration (some 100) (some 250) (some 30)).2.1 100 250 30
    rfl rfl rfl).trans (by decide)

/-- C9: every resource passed to the storage filter is admitted
(forwarded to the filtered channel) unconditionally, and the filter
signals completion to the orchestrator exactly once per invocation. -/
theorem C9_filter_admits_all {α : Type} (res : α) (st : FilterState α) :
    (Filtering res st).filtered = st.filtered ++ [res] ∧
    (Filtering res st).doneSignals = st.doneSignals + 1 :=
  ⟨rfl, rfl⟩

end GoatOne
